import Mathlib

/-!
Shallow embedding of `gd/cert/gd_device.py` from the GD Bluetooth cert-test
controller: lifecycle management of a backing worker process — startup
handshake over a signal socket, concurrent output draining into a log file,
signal-escalation teardown, port gating, and the Android-device
port-forward/reverse bringup with reboot-and-retry.

Each Python method is embedded as an executable Lean function over an explicit
environment describing the behaviour of the outside world (the backing
process, the adb transport, the inbound handshake connection).  Side-effecting
steps are recorded in an ordered event trace so that temporal claims
(ordering, presence or absence of steps) can be stated and proved.
-/

/-- POSIX signal number of `signal.SIGINT`, sent first by `teardown`. -/
def SIGINT : Int := 2

/-- POSIX signal number of SIGKILL, sent by `Popen.kill()` on escalation. -/
def SIGKILL : Int := 9

/-- Source constant `GdDeviceBase.WAIT_CHANNEL_READY_TIMEOUT_SECONDS = 10`, the bound used for
both process waits and for joining the logging future during teardown. -/
def GdDeviceBase.WAIT_CHANNEL_READY_TIMEOUT_SECONDS : Nat := 10

/-- Environment model of the backing process during `GdDeviceBase.teardown`:
whether each bounded `Popen.wait(timeout=10)` call returns before its timeout
(`exitsAfterSigint` for the wait following `send_signal(SIGINT)`,
`exitsAfterSigkill` for the wait following `kill()`), the return code each
wait would report, and whether the logging future finishes within the join
timeout.  A process that already exited before teardown is the special case
`exitsAfterSigint = true` with the stored return code, since `Popen.wait`
then returns immediately. -/
structure BackingProcessBehavior where
  exitsAfterSigint : Bool
  returnCodeAfterSigint : Int
  exitsAfterSigkill : Bool
  returnCodeAfterSigkill : Int
  loggingFutureFinishes : Bool
  deriving DecidableEq, Repr

/-- Observable steps of `GdDeviceBase.teardown`, in execution order. -/
inductive TeardownEvent where
  | closeGrpcChannel
  | closeGrpcRootServerChannel
  | sendSignal (sig : Int)
  | waitProcess (timeoutSeconds : Nat)
  | logFailedToKill
  | logAnomalousExit (code : Int)
  | joinLoggingFuture (timeoutSeconds : Nat)
  | logJoinTimedOut
  | shutdownExecutor
  deriving DecidableEq, Repr

/-- Outcome data recorded by `GdDeviceBase.teardown`:  `stopSignal` is the
final value of the Python local `stop_signal`, `returnCode` the final value of
`return_code`, `failedToKill` whether the "Failed to kill backing process"
branch ran, `anomalousExitLogged` whether the
`return_code not in [-stop_signal, 0]` error log fired, and
`loggingJoinTimedOut` whether joining the logging future timed out. -/
structure TeardownReport where
  stopSignal : Int
  returnCode : Int
  failedToKill : Bool
  anomalousExitLogged : Bool
  loggingJoinTimedOut : Bool
  deriving DecidableEq, Repr

/-- Intermediate result of the signal-escalation part of `teardown`
(source lines 287-303): final `stop_signal`, final `return_code`, whether the
kill failed, and the trace of events after the first bounded wait. -/
structure EscalationResult where
  stopSignal : Int
  returnCode : Int
  failedToKill : Bool
  extraEvents : List TeardownEvent
  deriving DecidableEq, Repr

/-- Embedding of the `try/except subprocess.TimeoutExpired` escalation ladder
of `GdDeviceBase.teardown`: SIGINT was already sent and a bounded wait issued;
if that wait timed out, `kill()` (SIGKILL) is sent and a second bounded wait
issued; if that also times out, `return_code = -65536` is recorded. -/
def GdDeviceBase.teardownEscalation (b : BackingProcessBehavior) : EscalationResult :=
  if b.exitsAfterSigint then
    ⟨SIGINT, b.returnCodeAfterSigint, false, []⟩
  else if b.exitsAfterSigkill then
    ⟨SIGKILL, b.returnCodeAfterSigkill, false,
      [TeardownEvent.sendSignal SIGKILL,
       TeardownEvent.waitProcess GdDeviceBase.WAIT_CHANNEL_READY_TIMEOUT_SECONDS]⟩
  else
    ⟨SIGKILL, -65536, true,
      [TeardownEvent.sendSignal SIGKILL,
       TeardownEvent.waitProcess GdDeviceBase.WAIT_CHANNEL_READY_TIMEOUT_SECONDS,
       TeardownEvent.logFailedToKill]⟩

/-- Embedding of `GdDeviceBase.teardown` (source lines 285-317), returning the
recorded report together with the ordered trace of its steps:
close both gRPC channels, send SIGINT, bounded wait, escalate if needed,
log an anomalous exit when `return_code not in [-stop_signal, 0]`, join the
logging future with a bounded timeout, shut down the executor. -/
def GdDeviceBase.teardownRun (b : BackingProcessBehavior) :
    TeardownReport × List TeardownEvent :=
  let esc := GdDeviceBase.teardownEscalation b
  let anomalous := !(esc.returnCode == -esc.stopSignal || esc.returnCode == 0)
  (⟨esc.stopSignal, esc.returnCode, esc.failedToKill, anomalous,
     !b.loggingFutureFinishes⟩,
   TeardownEvent.closeGrpcChannel ::
   TeardownEvent.closeGrpcRootServerChannel ::
   TeardownEvent.sendSignal SIGINT ::
   TeardownEvent.waitProcess GdDeviceBase.WAIT_CHANNEL_READY_TIMEOUT_SECONDS ::
   (esc.extraEvents ++
    (if anomalous then [TeardownEvent.logAnomalousExit esc.returnCode] else []) ++
    [TeardownEvent.joinLoggingFuture GdDeviceBase.WAIT_CHANNEL_READY_TIMEOUT_SECONDS] ++
    (if b.loggingFutureFinishes then [] else [TeardownEvent.logJoinTimedOut]) ++
    [TeardownEvent.shutdownExecutor]))

/-- Result of a `teardown` call as seen by its caller: either it runs to
completion with a report and a trace, or it raises an error.  The Python
method contains no `raise` and catches the only exceptions its bounded waits
can produce, so the embedding below never constructs `error`; the constructor
exists so that claims phrased as "returns an error" can be stated. -/
inductive TeardownOutcome where
  | completed (report : TeardownReport) (trace : List TeardownEvent)
  | error (message : String)
  deriving DecidableEq, Repr

/-- Whether a teardown outcome is an error. -/
def TeardownOutcome.isError : TeardownOutcome → Bool
  | TeardownOutcome.completed _ _ => false
  | TeardownOutcome.error _ => true

/-- Embedding of `GdDeviceBase.teardown` as its caller observes it: it always completes
normally with the computed report and trace (there is no state guard and no
error path in the source method). -/
def GdDeviceBase.teardown (b : BackingProcessBehavior) : TeardownOutcome :=
  TeardownOutcome.completed (GdDeviceBase.teardownRun b).1 (GdDeviceBase.teardownRun b).2

/-- Every bounded-wait step in a teardown trace uses the 10-second bound
`WAIT_CHANNEL_READY_TIMEOUT_SECONDS` (no unbounded wait exists). -/
def teardownWaitsBounded : List TeardownEvent → Bool
  | [] => true
  | TeardownEvent.waitProcess t :: rest =>
    (t == GdDeviceBase.WAIT_CHANNEL_READY_TIMEOUT_SECONDS) && teardownWaitsBounded rest
  | TeardownEvent.joinLoggingFuture t :: rest =>
    (t == GdDeviceBase.WAIT_CHANNEL_READY_TIMEOUT_SECONDS) && teardownWaitsBounded rest
  | _ :: rest => teardownWaitsBounded rest

/-- Behaviour of a second `teardown()` call on a handle whose backing process
already exited during the first call: both waits return immediately with the
stored return code (0 here, a clean first stop), and the logging future is
already finished. -/
def secondTeardownCall : BackingProcessBehavior := ⟨true, 0, true, 0, true⟩

/-- Ports a GD device is configured with (`grpc_port`,
`grpc_root_server_port`, `signal_port`; Python ints). -/
structure DevicePorts where
  grpcPort : Int
  grpcRootServerPort : Int
  signalPort : Int
  deriving DecidableEq, Repr

/-- Environment model for `GdDeviceBase.setup`: whether
`make_ports_available([signal_port])` succeeds, whether `subprocess.Popen`
returns a process object, whether the process is still alive immediately
after spawn, and when (in seconds after `listen`) the backing process
connects to the signal socket — `none` meaning the connection never
arrives. -/
structure SetupEnv where
  signalPortFree : Bool
  spawnSucceeds : Bool
  aliveAfterSpawn : Bool
  handshakeArrivalTime : Option Nat
  deriving DecidableEq, Repr

/-- Observable steps of the `setup` methods (base, host-only and Android
variants), in execution order.  `killBackingProcess` is included so that the
absence of any kill step in `setup` can be stated; the source emits it
nowhere. -/
inductive SetupEvent where
  | makePortsAvailable (ports : List Int)
  | bindSignalSocket (port : Int)
  | spawnBackingProcess
  | acceptSignalConnection
  | launchLoggingLoop
  | openGrpcChannels
  | killBackingProcess
  | ensureVerityDisabled
  | ensureRoot
  | adbSetDate
  | removeTcpForward (port : Int)
  | removeReverse (port : Int)
  | rebootDevice
  | pushFile (name : String)
  | logcatClear
  | removeBtsnoopLog
  | disableBluetooth
  deriving DecidableEq, Repr

/-- Outcome of a `setup` call.  `assertionFailure` models a raised
`asserts.assert_true` / `asserts.fail`; `blockedForever` models the call
never returning because `signal_socket.accept()` is waiting for a connection
that never arrives (the source sets no socket timeout); `ready t` models a
normal return after the handshake connection was accepted `t` seconds after
listening began. -/
inductive SetupOutcome where
  | assertionFailure (message : String)
  | blockedForever
  | ready (handshakeAcceptedAt : Nat)
  deriving DecidableEq, Repr

/-- Embedding of `GdDeviceBase.setup` (source lines 195-271): gate the signal
port, bind and listen on the signal socket, spawn the backing process, assert
it spawned and is alive, then call `signal_socket.accept()`.  The Python
socket is created with no `settimeout`, so `accept()` blocks until a
connection arrives, however long that takes; a connection arriving at any
time `t` lets setup proceed to launching the logging loop and opening the
gRPC channels, and if no connection ever arrives the call never returns. -/
def GdDeviceBase.setupRun (p : DevicePorts) (env : SetupEnv) :
    SetupOutcome × List SetupEvent :=
  let evs0 := [SetupEvent.makePortsAvailable [p.signalPort]]
  if env.signalPortFree = false then
    (SetupOutcome.assertionFailure "Failed to make signal port available", evs0)
  else
    let evs1 := evs0 ++ [SetupEvent.bindSignalSocket p.signalPort,
                         SetupEvent.spawnBackingProcess]
    if env.spawnSucceeds = false then
      (SetupOutcome.assertionFailure "Cannot start backing_process", evs1)
    else if env.aliveAfterSpawn = false then
      (SetupOutcome.assertionFailure "backing_process stopped immediately", evs1)
    else
      match env.handshakeArrivalTime with
      | none => (SetupOutcome.blockedForever, evs1 ++ [SetupEvent.acceptSignalConnection])
      | some t =>
        (SetupOutcome.ready t,
         evs1 ++ [SetupEvent.acceptSignalConnection,
                  SetupEvent.launchLoggingLoop,
                  SetupEvent.openGrpcChannels])

/-- Environment model for `GdHostOnlyDevice.setup`: whether
`make_ports_available((grpc_port, grpc_root_server_port))` succeeds, plus the
base environment. -/
structure HostOnlySetupEnv where
  rpcPortsFree : Bool
  base : SetupEnv
  deriving DecidableEq, Repr

/-- Embedding of `GdHostOnlyDevice.setup` (source lines 440-448): gate the
two backing-process RPC ports first, then delegate to the base `setup`. -/
def GdHostOnlyDevice.setupRun (p : DevicePorts) (env : HostOnlySetupEnv) :
    SetupOutcome × List SetupEvent :=
  let evs0 := [SetupEvent.makePortsAvailable [p.grpcPort, p.grpcRootServerPort]]
  if env.rpcPortsFree = false then
    (SetupOutcome.assertionFailure "Failed to make backing process ports available", evs0)
  else
    let r := GdDeviceBase.setupRun p env.base
    (r.1, evs0 ++ r.2)

/-- Possible values of `self.adb.tcp_forward(host_port, device_port)` as
`tcp_forward_or_die` distinguishes them: a falsy value (`None`, an empty
string — handled by `if not error_or_port`), an `int` (note that the int `0`
is itself falsy in Python and is therefore taken by the first branch), or a
truthy non-int value such as an error message. -/
inductive ForwardResult where
  | falsy
  | intPort (n : Int)
  | nonInt
  deriving DecidableEq, Repr

/-- Possible values of `self.adb.reverse("tcp:d tcp:h")` as
`tcp_reverse_or_die` distinguishes them: a falsy value, a truthy string that
`int()` parses to `n` (the string "0" is truthy and parses to 0), or a truthy
string on which `int()` raises `ValueError`. -/
inductive ReverseResult where
  | falsy
  | numeric (n : Int)
  | nonNumeric
  deriving DecidableEq, Repr

/-- Result of `tcp_forward_or_die` / `tcp_reverse_or_die`: a port value,
or a raised `asserts.fail`. -/
inductive OrDieResult where
  | port (n : Int)
  | fail (message : String)
  deriving DecidableEq, Repr

/-- Embedding of `GdAndroidDevice.tcp_forward_or_die` (source lines 542-567).
`results k` is the value the `k`-th call to `adb.tcp_forward` returns; the
method starts at call index `attempt`.  It returns the result together with
the number of device reboots performed: a falsy adb value means the port was
already forwarded and `host_port` is returned; an int is returned as the
forwarded port; any other value triggers, while `num_retry > 0`, a reboot and
a recursive retry with `num_retry - 1`, and once the budget is exhausted a
fatal `asserts.fail`. -/
def tcp_forward_or_die (hostPort devicePort : Int) (results : Nat → ForwardResult)
    (attempt : Nat) (numRetry : Nat) : OrDieResult × Nat :=
  match results attempt with
  | ForwardResult.falsy => (OrDieResult.port hostPort, 0)
  | ForwardResult.intPort n =>
    if n = 0 then (OrDieResult.port hostPort, 0) else (OrDieResult.port n, 0)
  | ForwardResult.nonInt =>
    match numRetry with
    | Nat.succ k =>
      let r := tcp_forward_or_die hostPort devicePort results (attempt + 1) k
      (r.1, r.2 + 1)
    | 0 => (OrDieResult.fail "Unable to forward host port to device port", 0)

/-- Embedding of `GdAndroidDevice.tcp_reverse_or_die` (source lines 569-597),
analogous to `tcp_forward_or_die`: a falsy adb value returns `device_port`;
a value `int()` accepts is returned as the port; a `ValueError` triggers,
while `num_retry > 0`, a reboot and a retry with `num_retry - 1`, and once
the budget is exhausted a fatal `asserts.fail`. -/
def tcp_reverse_or_die (devicePort hostPort : Int) (results : Nat → ReverseResult)
    (attempt : Nat) (numRetry : Nat) : OrDieResult × Nat :=
  match results attempt with
  | ReverseResult.falsy => (OrDieResult.port devicePort, 0)
  | ReverseResult.numeric n => (OrDieResult.port n, 0)
  | ReverseResult.nonNumeric =>
    match numRetry with
    | Nat.succ k =>
      let r := tcp_reverse_or_die devicePort hostPort results (attempt + 1) k
      (r.1, r.2 + 1)
    | 0 => (OrDieResult.fail "Unable to reverse device port to host port", 0)

/-- Environment model for `GdAndroidDevice.setup`: the successive results of
the adb forward calls for the gRPC port and the gRPC root-server port, of the
adb reverse calls for the signal port, and the base environment.  The
verity/root/date/push/shell steps are modelled as unconditionally performed
events; their own failure modes are outside the claims verified here. -/
structure AndroidSetupEnv where
  forwardGrpc : Nat → ForwardResult
  forwardRootServer : Nat → ForwardResult
  reverseSignal : Nat → ReverseResult
  base : SetupEnv

/-- Embedding of `GdAndroidDevice.setup` (source lines 468-497): device
preparation, best-effort removal of stale mappings, then
`tcp_forward_or_die` for the two RPC ports and `tcp_reverse_or_die` for the
signal port (each with the default retry budget `num_retry=1`, a reboot per
retry), binary pushes and shell cleanup, and only then delegation to the base
`setup`.  A fatal `asserts.fail` from any mapping helper propagates and the
base setup is never reached.  Note that the Android variant performs no
`make_ports_available` check of its own: only the base setup's signal-port
gate runs. -/
def GdAndroidDevice.setupRun (p : DevicePorts) (env : AndroidSetupEnv) :
    SetupOutcome × List SetupEvent :=
  let evs0 := [SetupEvent.ensureVerityDisabled, SetupEvent.ensureRoot,
               SetupEvent.adbSetDate,
               SetupEvent.removeTcpForward p.grpcPort,
               SetupEvent.removeTcpForward p.grpcRootServerPort,
               SetupEvent.removeReverse p.signalPort]
  let f1 := tcp_forward_or_die p.grpcPort p.grpcPort env.forwardGrpc 0 1
  let evs1 := evs0 ++ List.replicate f1.2 SetupEvent.rebootDevice
  match f1.1 with
  | OrDieResult.fail msg => (SetupOutcome.assertionFailure msg, evs1)
  | OrDieResult.port _ =>
    let f2 := tcp_forward_or_die p.grpcRootServerPort p.grpcRootServerPort
                env.forwardRootServer 0 1
    let evs2 := evs1 ++ List.replicate f2.2 SetupEvent.rebootDevice
    match f2.1 with
    | OrDieResult.fail msg => (SetupOutcome.assertionFailure msg, evs2)
    | OrDieResult.port _ =>
      let f3 := tcp_reverse_or_die p.signalPort p.signalPort env.reverseSignal 0 1
      let evs3 := evs2 ++ List.replicate f3.2 SetupEvent.rebootDevice
      match f3.1 with
      | OrDieResult.fail msg => (SetupOutcome.assertionFailure msg, evs3)
      | OrDieResult.port _ =>
        let evs4 := evs3 ++ [SetupEvent.pushFile "bluetooth_stack_with_facade",
                             SetupEvent.pushFile "libbluetooth_gd.so",
                             SetupEvent.pushFile "libgrpc_unsecure.so",
                             SetupEvent.logcatClear,
                             SetupEvent.removeBtsnoopLog,
                             SetupEvent.disableBluetooth]
        let r := GdDeviceBase.setupRun p env.base
        (r.1, evs4 ++ r.2)

/-- The port lists passed to `make_ports_available` in a setup trace, in
order. -/
def gatedPorts (evs : List SetupEvent) : List (List Int) :=
  evs.filterMap (fun e =>
    match e with
    | SetupEvent.makePortsAvailable ps => some ps
    | _ => none)

/-- An adb transport whose forward calls always report the port as already
forwarded (falsy result). -/
def forwardAlwaysOk : Nat → ForwardResult := fun _ => ForwardResult.falsy

/-- An adb transport whose reverse calls always report the port as already
reversed (falsy result). -/
def reverseAlwaysOk : Nat → ReverseResult := fun _ => ReverseResult.falsy

/-- An adb transport whose forward calls always return a truthy non-int
error value. -/
def forwardAlwaysError : Nat → ForwardResult := fun _ => ForwardResult.nonInt

/-- An adb transport whose reverse calls always return a truthy string that
`int()` rejects. -/
def reverseAlwaysError : Nat → ReverseResult := fun _ => ReverseResult.nonNumeric

/-- Concrete port assignment used in closed statements below. -/
def examplePorts : DevicePorts := ⟨8898, 8897, 8899⟩

/-- State of the backing-process log file opened by
`__backing_process_logging_loop`: `durable` holds the lines already flushed
to disk, `buffer` the written but not yet flushed lines.  The Python file is
opened with `open(path, 'w')`, i.e. with default block buffering. -/
structure LogFile where
  durable : List String
  buffer : List String
  deriving DecidableEq, Repr

/-- Embedding of `file.write(line)`: the line joins the userspace buffer. -/
def LogFile.write (f : LogFile) (line : String) : LogFile :=
  { f with buffer := f.buffer ++ [line] }

/-- Flushing the file: the buffered lines become durable, in order. -/
def LogFile.flushAll (f : LogFile) : LogFile :=
  ⟨f.durable ++ f.buffer, []⟩

/-- One iteration of the `for line in self.backing_process.stdout` loop in
`__backing_process_logging_loop` (source lines 187-193): write the line to
the log file (no flush call follows), and if `verbose_mode` is set also echo
the stripped line to the terminal.  State is the log file plus the list of
echoed lines. -/
def backing_process_logging_step (verboseMode : Bool)
    (st : LogFile × List String) (line : String) : LogFile × List String :=
  (st.1.write line, if verboseMode then st.2 ++ [line.trim] else st.2)

/-- The log-file state after the loop has consumed `linesRead` lines while
the stream is still open: no flush has happened yet. -/
def backing_process_logging_mid (verboseMode : Bool) (linesRead : List String) :
    LogFile × List String :=
  linesRead.foldl (backing_process_logging_step verboseMode) (⟨[], []⟩, [])

/-- Embedding of `GdDeviceBase.__backing_process_logging_loop`: consume the
whole output stream line by line, then leave the `with open(...)` block,
which closes the file and thereby flushes the buffer.  Returns the final
log-file state and the echoed lines. -/
def backing_process_logging_loop (verboseMode : Bool) (streamLines : List String) :
    LogFile × List String :=
  let st := backing_process_logging_mid verboseMode streamLines
  (st.1.flushAll, st.2)

/-- The configuration dictionary entries of one GD device that determine
which device class `get_instances_with_configs` instantiates.  Only
`serial_number` is consulted for that choice (`config.get("serial_number")`
is truthy exactly when the key is present with a non-empty string). -/
structure GdDeviceConfig where
  serialNumber : Option String
  label : String
  deriving DecidableEq, Repr

/-- A Python value passed as `configs` to `create`: either an actual list of
device configurations, or a non-list value with the given truthiness
(`None`, `{}` and `""` are falsy non-lists; a non-empty dict or string is a
truthy non-list). -/
inductive PyConfigs where
  | pylist (configs : List GdDeviceConfig)
  | nonList (truthy : Bool)
  deriving DecidableEq, Repr

/-- Python truthiness of the `configs` value: a list is truthy when
non-empty. -/
def PyConfigs.isTruthy : PyConfigs → Bool
  | PyConfigs.pylist cs => !cs.isEmpty
  | PyConfigs.nonList t => t

/-- Python check `isinstance(configs, list)`. -/
def PyConfigs.isPyList : PyConfigs → Bool
  | PyConfigs.pylist _ => true
  | PyConfigs.nonList _ => false

/-- The underlying list of a `configs` value (only consulted after the
`isinstance` check has passed). -/
def PyConfigs.asList : PyConfigs → List GdDeviceConfig
  | PyConfigs.pylist cs => cs
  | PyConfigs.nonList _ => []

/-- Which device class a configuration instantiates. -/
inductive DeviceKind where
  | androidDevice
  | hostOnlyDevice
  deriving DecidableEq, Repr

/-- Embedding of `get_instances_with_configs` (source lines 82-104) at the
granularity claim C9 needs: each configuration yields a `GdAndroidDevice`
when `config.get("serial_number")` is truthy and a `GdHostOnlyDevice`
otherwise.  Argument resolution and the per-device `setup()` call are
modelled elsewhere (`GdAndroidDevice.setupRun`, `GdHostOnlyDevice.setupRun`). -/
def get_instances_with_configs (configs : List GdDeviceConfig) : List DeviceKind :=
  configs.map (fun c =>
    if (c.serialNumber.getD "").isEmpty then DeviceKind.hostOnlyDevice
    else DeviceKind.androidDevice)

/-- Embedding of `create` (source lines 61-66): `if not configs` raises
"Configuration is empty"; `elif not isinstance(configs, list)` raises
"Configuration should be a list"; otherwise the devices are constructed. -/
def create (configs : PyConfigs) : Except String (List DeviceKind) :=
  if configs.isTruthy = false then Except.error "Configuration is empty"
  else if configs.isPyList = false then Except.error "Configuration should be a list"
  else Except.ok (get_instances_with_configs configs.asList)

/-- Whether an `Except` result is an error. -/
def exceptIsError {e a : Type} : Except e a → Bool
  | Except.error _ => true
  | Except.ok _ => false

/-- C3 counterexample: running `teardown` again on a handle whose backing
process already stopped does not return an error — the outcome is
`completed`, and the trace shows the interrupt signal being sent again, so
the stop sequence is re-run rather than rejected. -/
theorem c3_counterexample :
    (GdDeviceBase.teardown secondTeardownCall).isError = false
    ∧ TeardownEvent.sendSignal SIGINT ∈ (GdDeviceBase.teardownRun secondTeardownCall).2 := by
  decide

/-- C3 (amended): `teardown` has no stopped-state guard.  Called a second
time on a handle whose backing process already exited (waits return
immediately with the stored return code 0), it re-runs the entire stop
sequence — closes both gRPC channels, sends SIGINT, performs the bounded
wait, joins the logging future and shuts down the executor — and completes
normally instead of returning an error. -/
theorem c3_teardown_not_guarded :
    GdDeviceBase.teardown secondTeardownCall
      = TeardownOutcome.completed
          ⟨SIGINT, 0, false, false, false⟩
          [TeardownEvent.closeGrpcChannel,
           TeardownEvent.closeGrpcRootServerChannel,
           TeardownEvent.sendSignal SIGINT,
           TeardownEvent.waitProcess GdDeviceBase.WAIT_CHANNEL_READY_TIMEOUT_SECONDS,
           TeardownEvent.joinLoggingFuture GdDeviceBase.WAIT_CHANNEL_READY_TIMEOUT_SECONDS,
           TeardownEvent.shutdownExecutor] := by
  decide

/-- C4: teardown's stop-signal escalation.  For every backing-process
behaviour, teardown completes (never an error, so it always returns) with
every wait bounded by the 10-second timeout, and it always reaches the final
executor shutdown.  When the process does not exit within the timeout after
SIGINT, the trace contains SIGINT, a bounded wait, SIGKILL and a second
bounded wait in that order; when even the SIGKILL wait times out, the
failed-to-kill condition is recorded and teardown still proceeds.  When the
process exits within the first wait, no SIGKILL is ever sent. -/
theorem c4_teardown_escalation :
    (∀ b : BackingProcessBehavior,
        (GdDeviceBase.teardown b).isError = false
        ∧ teardownWaitsBounded (GdDeviceBase.teardownRun b).2 = true
        ∧ TeardownEvent.shutdownExecutor ∈ (GdDeviceBase.teardownRun b).2)
    ∧ (∀ (rc1 : Int) (ex2 : Bool) (rc2 : Int) (fin : Bool),
        List.Sublist
          [TeardownEvent.sendSignal SIGINT,
           TeardownEvent.waitProcess GdDeviceBase.WAIT_CHANNEL_READY_TIMEOUT_SECONDS,
           TeardownEvent.sendSignal SIGKILL,
           TeardownEvent.waitProcess GdDeviceBase.WAIT_CHANNEL_READY_TIMEOUT_SECONDS]
          (GdDeviceBase.teardownRun ⟨false, rc1, ex2, rc2, fin⟩).2)
    ∧ (∀ (rc1 rc2 : Int) (fin : Bool),
        ((GdDeviceBase.teardownRun ⟨false, rc1, false, rc2, fin⟩).1).failedToKill = true)
    ∧ (∀ (rc1 : Int) (ex2 : Bool) (rc2 : Int) (fin : Bool),
        TeardownEvent.sendSignal SIGKILL
          ∉ (GdDeviceBase.teardownRun ⟨true, rc1, ex2, rc2, fin⟩).2) := by
  refine ⟨?_, ?_, ?_, ?_⟩
  · intro b
    obtain ⟨e1, r1, e2, r2, fin⟩ := b
    refine ⟨rfl, ?_, ?_⟩
    · cases e1 <;> cases e2 <;> cases fin <;>
        simp [GdDeviceBase.teardownRun, GdDeviceBase.teardownEscalation,
          teardownWaitsBounded] <;>
        split <;>
        simp [teardownWaitsBounded]
    · cases e1 <;> cases e2 <;> cases fin <;>
        simp [GdDeviceBase.teardownRun, GdDeviceBase.teardownEscalation]
  · intro rc1 ex2 rc2 fin
    cases ex2 <;>
      simp only [GdDeviceBase.teardownRun, GdDeviceBase.teardownEscalation,
        Bool.false_eq_true, if_false, if_true, List.cons_append, List.nil_append,
        List.append_assoc] <;>
      exact List.Sublist.cons _ (List.Sublist.cons _ (List.sublist_append_left _ _))
  · intro rc1 rc2 fin
    simp [GdDeviceBase.teardownRun, GdDeviceBase.teardownEscalation]
  · intro rc1 ex2 rc2 fin
    cases fin <;>
      simp [GdDeviceBase.teardownRun, GdDeviceBase.teardownEscalation,
        SIGINT, SIGKILL]

/-- C5: the exit status observed by teardown is accepted exactly when it is
`-stop_signal` (termination by the signal most recently sent) or `0`; any
other status sets the anomalous-exit warning.  The recorded stop signal is
SIGINT when the process exits within the first wait and SIGKILL after
escalation.  In particular, a worker that ignores SIGINT but dies to SIGKILL
(observed status `-SIGKILL`) produces no anomalous-exit warning and teardown
completes without error. -/
theorem c5_exit_status_accepted_outcomes :
    (∀ b : BackingProcessBehavior,
        ((GdDeviceBase.teardownRun b).1).anomalousExitLogged
          = (!(((GdDeviceBase.teardownRun b).1).returnCode
                  == -((GdDeviceBase.teardownRun b).1).stopSignal
               || ((GdDeviceBase.teardownRun b).1).returnCode == 0)))
    ∧ (∀ b : BackingProcessBehavior,
        ((GdDeviceBase.teardownRun b).1).stopSignal
          = if b.exitsAfterSigint then SIGINT else SIGKILL)
    ∧ (∀ (rc1 : Int) (fin : Bool),
        ((GdDeviceBase.teardownRun ⟨false, rc1, true, -SIGKILL, fin⟩).1).anomalousExitLogged
            = false
        ∧ (GdDeviceBase.teardown ⟨false, rc1, true, -SIGKILL, fin⟩).isError = false) := by
  refine ⟨?_, ?_, ?_⟩
  · intro b
    obtain ⟨e1, r1, e2, r2, fin⟩ := b
    cases e1 <;> cases e2 <;>
      simp [GdDeviceBase.teardownRun, GdDeviceBase.teardownEscalation]
  · intro b
    obtain ⟨e1, r1, e2, r2, fin⟩ := b
    cases e1 <;> cases e2 <;>
      simp [GdDeviceBase.teardownRun, GdDeviceBase.teardownEscalation]
  · intro rc1 fin
    refine ⟨?_, rfl⟩
    simp [GdDeviceBase.teardownRun, GdDeviceBase.teardownEscalation]

/-- C6: in every teardown trace, both gRPC channel closures strictly precede
the first signal sent to the worker — the trace always begins with the main
channel close, then the root-server channel close, then the SIGINT send. -/
theorem c6_channels_closed_before_signal :
    ∀ b : BackingProcessBehavior, ∃ rest,
      (GdDeviceBase.teardownRun b).2
        = TeardownEvent.closeGrpcChannel ::
          TeardownEvent.closeGrpcRootServerChannel ::
          TeardownEvent.sendSignal SIGINT :: rest := by
  intro b
  exact ⟨_, rfl⟩

/-- C10: when both teardown waits time out, the recorded return code is the
sentinel `-65536`; it differs from `0`, from `-SIGINT` and from `-SIGKILL`
(and the stop signal is always one of SIGINT or SIGKILL), so the
anomalous-exit warning fires, and the trace still reaches the bounded-timeout
join of the logging future. -/
theorem c10_failed_kill_sentinel :
    (∀ (rc1 rc2 : Int) (fin : Bool),
        ((GdDeviceBase.teardownRun ⟨false, rc1, false, rc2, fin⟩).1).returnCode = -65536
        ∧ ((GdDeviceBase.teardownRun ⟨false, rc1, false, rc2, fin⟩).1).anomalousExitLogged
            = true
        ∧ TeardownEvent.joinLoggingFuture GdDeviceBase.WAIT_CHANNEL_READY_TIMEOUT_SECONDS
            ∈ (GdDeviceBase.teardownRun ⟨false, rc1, false, rc2, fin⟩).2)
    ∧ ((-65536 : Int) ≠ 0 ∧ (-65536 : Int) ≠ -SIGINT ∧ (-65536 : Int) ≠ -SIGKILL)
    ∧ (∀ b : BackingProcessBehavior,
        ((GdDeviceBase.teardownRun b).1).stopSignal = SIGINT
        ∨ ((GdDeviceBase.teardownRun b).1).stopSignal = SIGKILL) := by
  refine ⟨?_, by decide, ?_⟩
  · intro rc1 rc2 fin
    refine ⟨rfl, ?_, ?_⟩
    · simp [GdDeviceBase.teardownRun, GdDeviceBase.teardownEscalation, SIGKILL]
    · cases fin <;>
        simp [GdDeviceBase.teardownRun, GdDeviceBase.teardownEscalation]
  · intro b
    obtain ⟨e1, r1, e2, r2, fin⟩ := b
    cases e1 <;> cases e2 <;>
      simp [GdDeviceBase.teardownRun, GdDeviceBase.teardownEscalation]

/-- C1 counterexample: with the signal port available, the process spawned
and alive, but the handshake connection arriving only 11 seconds after the
listen (beyond the claimed 10-second bound), `setup` neither fails with a
startup-timeout error nor kills the worker: it accepts the late connection
and completes normally.  The claimed bounded wait does not exist in the
code — `signal_socket.accept()` is called with no socket timeout. -/
theorem c1_counterexample :
    (GdDeviceBase.setupRun examplePorts ⟨true, true, true, some 11⟩).1
        = SetupOutcome.ready 11
    ∧ SetupEvent.killBackingProcess
        ∉ (GdDeviceBase.setupRun examplePorts ⟨true, true, true, some 11⟩).2 := by
  decide

/-- C1 (amended): the wait for the handshake connection in
`GdDeviceBase.setup` is unbounded.  A connection arriving at any time `t`
after the listen — however far past 10 seconds — makes setup succeed; if the
connection never arrives, setup blocks forever on `accept()`; and no setup
execution ever kills the spawned worker (there is no timeout branch, no kill
step and no startup-timeout error). -/
theorem c1_handshake_wait_unbounded :
    (∀ (p : DevicePorts) (t : Nat),
        (GdDeviceBase.setupRun p ⟨true, true, true, some t⟩).1 = SetupOutcome.ready t)
    ∧ (∀ p : DevicePorts,
        (GdDeviceBase.setupRun p ⟨true, true, true, none⟩).1 = SetupOutcome.blockedForever)
    ∧ (∀ (p : DevicePorts) (env : SetupEnv),
        SetupEvent.killBackingProcess ∉ (GdDeviceBase.setupRun p env).2) := by
  refine ⟨fun p t => rfl, fun p => rfl, ?_⟩
  intro p env
  obtain ⟨sf, ss, al, t⟩ := env
  cases sf <;> cases ss <;> cases al <;> cases t <;>
    simp [GdDeviceBase.setupRun]

/-- C2 counterexample: after the drain loop has read the line "line one"
with the stream still open, nothing is durably in the log file — the write
is only buffered (`open(path, 'w')` uses block buffering and the loop body
contains no flush), contradicting the claim that the file is flushed per
line, so that every line already read is durably in the log. -/
theorem c2_counterexample :
    ((backing_process_logging_mid false ["line one"]).1).durable = []
    ∧ ((backing_process_logging_mid false ["line one"]).1).durable ≠ ["line one"] := by
  decide

/-- C2 (amended): each line read by the drain loop is appended to the log
file in the order received, but with no per-line flush: while the stream is
open nothing read so far is durable yet, and only when the stream ends and
the `with open` block closes the file does the log durably contain exactly
the lines read, in order. -/
theorem c2_log_order_no_per_line_flush :
    ∀ (verboseMode : Bool) (streamLines : List String),
      (backing_process_logging_loop verboseMode streamLines).1
          = ⟨streamLines, []⟩
      ∧ ((backing_process_logging_mid verboseMode streamLines).1).durable = [] := by
  have hfold : ∀ (v : Bool) (lines : List String) (f : LogFile) (e : List String),
      ((lines.foldl (backing_process_logging_step v) (f, e)).1)
        = ⟨f.durable, f.buffer ++ lines⟩ := by
    intro v lines
    induction lines with
    | nil => intro f e; simp
    | cons a as ih =>
      intro f e
      simp only [List.foldl_cons, backing_process_logging_step]
      rw [ih]
      simp [LogFile.write]
  intro v lines
  constructor
  · show ((backing_process_logging_mid v lines).1).flushAll = _
    unfold backing_process_logging_mid
    rw [hfold]
    simp [LogFile.flushAll]
  · unfold backing_process_logging_mid
    rw [hfold]

/-- Computation of `gatedPorts` over a cons cell. -/
lemma gatedPorts_cons (e : SetupEvent) (l : List SetupEvent) :
    gatedPorts (e :: l)
      = (match e with
         | SetupEvent.makePortsAvailable ps => [ps]
         | _ => []) ++ gatedPorts l := by
  cases e <;> simp [gatedPorts]

/-- The function `gatedPorts` distributes over append. -/
lemma gatedPorts_append (l1 l2 : List SetupEvent) :
    gatedPorts (l1 ++ l2) = gatedPorts l1 ++ gatedPorts l2 := by
  simp [gatedPorts]

/-- The empty trace gates no ports. -/
lemma gatedPorts_nil : gatedPorts [] = [] := rfl

/-- Reboot events gate no ports. -/
lemma gatedPorts_replicate_reboot (n : Nat) :
    gatedPorts (List.replicate n SetupEvent.rebootDevice) = [] := by
  induction n with
  | zero => rfl
  | succ k ih => simp [List.replicate_succ, gatedPorts_cons, ih]

/-- The base `setup` gates exactly the signal port (its only
`make_ports_available` call), in every environment. -/
lemma base_setup_gatedPorts (p : DevicePorts) (env : SetupEnv) :
    gatedPorts (GdDeviceBase.setupRun p env).2 = [[p.signalPort]] := by
  obtain ⟨sf, ss, al, t⟩ := env
  cases sf <;> cases ss <;> cases al <;> cases t <;>
    simp [GdDeviceBase.setupRun, gatedPorts]

/-- C7: port gating differs between the two variants as claimed.  The
host-only `setup` gates the main and root-server RPC ports first and then
(via the base `setup`) the handshake signal port; the Android `setup` never
gates any port other than the signal port, in any environment, and when its
port mappings succeed it does gate the signal port via the base `setup`. -/
theorem c7_port_gating_variants :
    (∀ (p : DevicePorts) (benv : SetupEnv),
        gatedPorts (GdHostOnlyDevice.setupRun p ⟨true, benv⟩).2
          = [[p.grpcPort, p.grpcRootServerPort], [p.signalPort]])
    ∧ (∀ (p : DevicePorts) (env : AndroidSetupEnv),
        (gatedPorts (GdAndroidDevice.setupRun p env).2).all
          (fun ps => ps == [p.signalPort]) = true)
    ∧ (∀ (p : DevicePorts) (benv : SetupEnv),
        gatedPorts (GdAndroidDevice.setupRun p
            ⟨forwardAlwaysOk, forwardAlwaysOk, reverseAlwaysOk, benv⟩).2
          = [[p.signalPort]]) := by
  refine ⟨?_, ?_, ?_⟩
  · intro p benv
    simp only [GdHostOnlyDevice.setupRun]
    norm_num
    rw [gatedPorts_cons, base_setup_gatedPorts]
    rfl
  · intro p env
    obtain ⟨fg, fr, rs, benv⟩ := env
    simp only [GdAndroidDevice.setupRun]
    split
    · simp [gatedPorts_append, gatedPorts_cons, gatedPorts_nil,
        gatedPorts_replicate_reboot]
    · split
      · simp [gatedPorts_append, gatedPorts_cons, gatedPorts_nil,
          gatedPorts_replicate_reboot]
      · split
        · simp [gatedPorts_append, gatedPorts_cons, gatedPorts_nil,
            gatedPorts_replicate_reboot]
        · simp [gatedPorts_append, gatedPorts_cons, gatedPorts_nil,
            gatedPorts_replicate_reboot, base_setup_gatedPorts]
  · intro p benv
    simp only [GdAndroidDevice.setupRun, tcp_forward_or_die, tcp_reverse_or_die,
      forwardAlwaysOk, reverseAlwaysOk]
    simp [gatedPorts_append, gatedPorts_cons, gatedPorts_nil,
      gatedPorts_replicate_reboot, base_setup_gatedPorts]

/-- C8: retry-and-reboot policy of the port-mapping helpers.  With an adb
transport whose forward (resp. reverse) calls always return a non-numeric
error value, `tcp_forward_or_die` (resp. `tcp_reverse_or_die`) with retry
budget `n` performs exactly `n` reboot-and-retry rounds (one per remaining
budget, decrementing it each time) and then fails fatally; and the Android
`setup`, which uses the default budget 1, then raises the fatal failure after
one reboot without ever reaching the base `setup` (no backing process is
spawned). -/
theorem c8_forward_retry_exhaustion :
    (∀ (hp dp : Int) (a n : Nat),
        tcp_forward_or_die hp dp forwardAlwaysError a n
          = (OrDieResult.fail "Unable to forward host port to device port", n))
    ∧ (∀ (dp hp : Int) (a n : Nat),
        tcp_reverse_or_die dp hp reverseAlwaysError a n
          = (OrDieResult.fail "Unable to reverse device port to host port", n))
    ∧ (∀ (p : DevicePorts) (fr : Nat → ForwardResult) (rs : Nat → ReverseResult)
          (benv : SetupEnv),
        (GdAndroidDevice.setupRun p ⟨forwardAlwaysError, fr, rs, benv⟩).1
            = SetupOutcome.assertionFailure "Unable to forward host port to device port"
        ∧ SetupEvent.rebootDevice
            ∈ (GdAndroidDevice.setupRun p ⟨forwardAlwaysError, fr, rs, benv⟩).2
        ∧ SetupEvent.spawnBackingProcess
            ∉ (GdAndroidDevice.setupRun p ⟨forwardAlwaysError, fr, rs, benv⟩).2) := by
  have hf : ∀ (hp dp : Int) (a n : Nat),
      tcp_forward_or_die hp dp forwardAlwaysError a n
        = (OrDieResult.fail "Unable to forward host port to device port", n) := by
    intro hp dp a n
    induction n generalizing a with
    | zero => rfl
    | succ k ih =>
      have hstep : tcp_forward_or_die hp dp forwardAlwaysError a (k + 1)
          = ((tcp_forward_or_die hp dp forwardAlwaysError (a + 1) k).1,
             (tcp_forward_or_die hp dp forwardAlwaysError (a + 1) k).2 + 1) := rfl
      rw [hstep, ih]
  have hr : ∀ (dp hp : Int) (a n : Nat),
      tcp_reverse_or_die dp hp reverseAlwaysError a n
        = (OrDieResult.fail "Unable to reverse device port to host port", n) := by
    intro dp hp a n
    induction n generalizing a with
    | zero => rfl
    | succ k ih =>
      have hstep : tcp_reverse_or_die dp hp reverseAlwaysError a (k + 1)
          = ((tcp_reverse_or_die dp hp reverseAlwaysError (a + 1) k).1,
             (tcp_reverse_or_die dp hp reverseAlwaysError (a + 1) k).2 + 1) := rfl
      rw [hstep, ih]
  refine ⟨hf, hr, ?_⟩
  intro p fr rs benv
  simp [GdAndroidDevice.setupRun, hf]

/-- C9: `create` validates its input at the public interface.  An empty
configuration list is rejected with "Configuration is empty"; every non-list
value is rejected with an error (a falsy non-list hits the emptiness check
first, a truthy non-list the `isinstance` check); and in neither case is any
device constructed. -/
theorem c9_create_input_validation :
    (create (PyConfigs.pylist []) = Except.error "Configuration is empty")
    ∧ (∀ t : Bool, exceptIsError (create (PyConfigs.nonList t)) = true)
    ∧ (∀ (t : Bool) (ds : List DeviceKind),
        create (PyConfigs.nonList t) ≠ Except.ok ds) := by
  refine ⟨rfl, ?_, ?_⟩
  · intro t
    cases t <;> rfl
  · intro t ds
    cases t <;> simp [create, PyConfigs.isTruthy, PyConfigs.isPyList]

/-- C1 witness: the amended handshake theorem evaluated at the example ports
with a connection arriving 42 seconds after listen. -/
theorem c1_handshake_wait_unbounded_witness :
    (GdDeviceBase.setupRun examplePorts ⟨true, true, true, some 42⟩).1
        = SetupOutcome.ready 42
    ∧ SetupEvent.killBackingProcess
        ∉ (GdDeviceBase.setupRun examplePorts ⟨true, true, true, some 42⟩).2 :=
  ⟨c1_handshake_wait_unbounded.1 examplePorts 42,
   c1_handshake_wait_unbounded.2.2 examplePorts ⟨true, true, true, some 42⟩⟩

/-- C2 witness: the amended drain-loop theorem evaluated on a concrete
two-line stream in verbose mode. -/
theorem c2_log_order_no_per_line_flush_witness :
    (backing_process_logging_loop true ["first line", "second line"]).1
        = ⟨["first line", "second line"], []⟩
    ∧ ((backing_process_logging_mid true ["first line", "second line"]).1).durable
        = [] :=
  c2_log_order_no_per_line_flush true ["first line", "second line"]

/-- C4 witness: the escalation theorem evaluated at concrete behaviours — a
process that exits on SIGINT is never sent SIGKILL, and one that survives
both signals has the failed-to-kill condition recorded. -/
theorem c4_teardown_escalation_witness :
    TeardownEvent.sendSignal SIGKILL
        ∉ (GdDeviceBase.teardownRun ⟨true, 0, false, 0, true⟩).2
    ∧ ((GdDeviceBase.teardownRun ⟨false, 1, false, 1, true⟩).1).failedToKill = true :=
  ⟨c4_teardown_escalation.2.2.2 0 false 0 true,
   c4_teardown_escalation.2.2.1 1 1 true⟩

/-- C5 witness: the exit-status theorem evaluated for a worker that ignored
SIGINT and was observed terminated by SIGKILL. -/
theorem c5_exit_status_accepted_outcomes_witness :
    ((GdDeviceBase.teardownRun ⟨false, 5, true, -SIGKILL, true⟩).1).anomalousExitLogged
        = false
    ∧ (GdDeviceBase.teardown ⟨false, 5, true, -SIGKILL, true⟩).isError = false :=
  c5_exit_status_accepted_outcomes.2.2 5 true

/-- C6 witness: the channel-close-before-signal theorem evaluated at a
concrete behaviour. -/
theorem c6_channels_closed_before_signal_witness :
    ∃ rest, (GdDeviceBase.teardownRun ⟨true, 0, true, 0, true⟩).2
      = TeardownEvent.closeGrpcChannel ::
        TeardownEvent.closeGrpcRootServerChannel ::
        TeardownEvent.sendSignal SIGINT :: rest :=
  c6_channels_closed_before_signal ⟨true, 0, true, 0, true⟩

/-- C7 witness: the port-gating theorem evaluated at the example ports with
everything succeeding. -/
theorem c7_port_gating_variants_witness :
    gatedPorts (GdHostOnlyDevice.setupRun examplePorts
        ⟨true, ⟨true, true, true, some 0⟩⟩).2
      = [[examplePorts.grpcPort, examplePorts.grpcRootServerPort],
         [examplePorts.signalPort]]
    ∧ gatedPorts (GdAndroidDevice.setupRun examplePorts
        ⟨forwardAlwaysOk, forwardAlwaysOk, reverseAlwaysOk,
         ⟨true, true, true, some 0⟩⟩).2
      = [[examplePorts.signalPort]] :=
  ⟨c7_port_gating_variants.1 examplePorts ⟨true, true, true, some 0⟩,
   c7_port_gating_variants.2.2 examplePorts ⟨true, true, true, some 0⟩⟩

/-- C8 witness: the retry-exhaustion theorem evaluated at concrete ports and
a transport whose forward calls always fail with a non-numeric value. -/
theorem c8_forward_retry_exhaustion_witness :
    tcp_forward_or_die 8898 8898 forwardAlwaysError 0 1
        = (OrDieResult.fail "Unable to forward host port to device port", 1)
    ∧ SetupEvent.spawnBackingProcess
        ∉ (GdAndroidDevice.setupRun examplePorts
            ⟨forwardAlwaysError, forwardAlwaysOk, reverseAlwaysOk,
             ⟨true, true, true, some 0⟩⟩).2 :=
  ⟨c8_forward_retry_exhaustion.1 8898 8898 0 1,
   (c8_forward_retry_exhaustion.2.2 examplePorts forwardAlwaysOk reverseAlwaysOk
      ⟨true, true, true, some 0⟩).2.2⟩

/-- C9 witness: the input-validation theorem evaluated at a truthy non-list
value. -/
theorem c9_create_input_validation_witness :
    create (PyConfigs.nonList true) ≠ Except.ok [] :=
  c9_create_input_validation.2.2 true []

/-- C10 witness: the sentinel theorem evaluated at a worker that survives
both signals. -/
theorem c10_failed_kill_sentinel_witness :
    ((GdDeviceBase.teardownRun ⟨false, 7, false, 7, false⟩).1).returnCode = -65536
    ∧ ((-65536 : Int)) ≠ 0 :=
  ⟨(c10_failed_kill_sentinel.1 7 7 false).1, c10_failed_kill_sentinel.2.1.1⟩
